import Mathlib

/-!
Shallow embedding of `bedrock-oauth2-verifier` (lib/accessToken.js,
lib/targetScopedAccessToken.js, lib/discovery.js) and proofs about the
behaviour of its access-token checking, scope matching and issuer-config
discovery/caching logic.

JavaScript strings are modelled as Lean `String` (character-level
operations; the sources only manipulate them with `startsWith`, `slice`,
`split` and template concatenation, which the Lean `String` API mirrors).
JavaScript object/promise identity is modelled with `Nat` allocation ids
where a claim depends on identity.  Thrown errors are modelled with
`Except`.
-/

namespace BedrockOauth2

/-- Details object attached to a `BedrockError` in the sources; fields that a
given error site does not set are `none`. -/
structure ErrorDetails where
  httpStatusCode : Nat
  isPublic : Bool
  code : Option String := none
  reason : Option String := none
  claim : Option String := none
  expected : Option String := none
  actual : Option String := none
deriving DecidableEq, Repr

/-- Errors thrown by the modelled code: `BedrockError`s, JavaScript
`TypeError`s (e.g. from indexing `null`), and plain `Error`s carrying an
optional overridden `name` and optional `httpStatusCode` property. -/
inductive JsError where
  | bedrockError (message : String) (name : String) (details : ErrorDetails)
  | typeError (message : String)
  | plainError (message : String) (name : String) (httpStatusCode : Option Nat)
deriving DecidableEq, Repr

/-- A character matched by an (un-flagged) JavaScript regex `.`:
everything except the four line terminators. -/
def jsDotChar (c : Char) : Bool :=
  ¬ (c = '\n' ∨ c = '\r' ∨ c.toNat = 0x2028 ∨ c.toNat = 0x2029)

/-- JavaScript `startsWith` (and the anchored prefix test of a regex
match): character-level prefix. -/
def strStartsWith (s p : String) : Bool :=
  p.data.isPrefixOf s.data

/-- JavaScript `String.prototype.includes(c)` for a single character (the
`typeof`-check helper uses it to test for `:`). -/
def strContains (s : String) (c : Char) : Bool :=
  s.data.contains c

/-- JavaScript `s.slice(n)` (character-level suffix). -/
def strDrop (s : String) (n : Nat) : String :=
  String.mk (s.data.drop n)

/-- JavaScript `s.slice(0, n)` (character-level prefix). -/
def strTake (s : String) (n : Nat) : String :=
  String.mk (s.data.take n)

/-- JavaScript `s.length` (character-level; the sources never index into
surrogate pairs). -/
def strLength (s : String) : Nat :=
  s.data.length

/-- ASCII lower-casing, the effect of a case-insensitive regex match on
the ASCII-only pattern `Bearer `. -/
def asciiLower (s : String) : String :=
  String.mk (s.data.map Char.toLower)

/-- JavaScript `s.split(' ')`: split on every single space, keeping empty
pieces (so `''.split(' ')` is `['']`). -/
def jsSplitSpaceAux : List Char → List Char → List String
  | [], acc => [String.mk acc.reverse]
  | c :: cs, acc =>
    if c = ' ' then String.mk acc.reverse :: jsSplitSpaceAux cs []
    else jsSplitSpaceAux cs (c :: acc)

/-- JavaScript `s.split(' ')` on a whole string. -/
def jsSplitSpace (s : String) : List String :=
  jsSplitSpaceAux s.data []

/-- Decidable equality of modelled outcomes (used only to evaluate the
model at concrete inputs). -/
instance {ε α : Type} [DecidableEq ε] [DecidableEq α] :
    DecidableEq (Except ε α) := fun a b =>
  match a, b with
  | .ok x, .ok y =>
    if h : x = y then .isTrue (by rw [h]) else
      .isFalse (by intro hc; cases hc; exact h rfl)
  | .error x, .error y =>
    if h : x = y then .isTrue (by rw [h]) else
      .isFalse (by intro hc; cases hc; exact h rfl)
  | .ok _, .error _ => .isFalse (by intro hc; cases hc)
  | .error _, .ok _ => .isFalse (by intro hc; cases hc)

/-! ## lib/accessToken.js -/

/-- `OAUTH2_TOKEN_REGEX = /^Bearer (.+)$/i` applied by `String.match`:
returns the capture group (the token) when the whole string is a
case-insensitive `Bearer ` prefix followed by at least one `.`-matchable
character, else `none` (JS `match` returns `null`). -/
def oauth2TokenRegexCapture (s : String) : Option String :=
  let rest := strDrop s 7
  if asciiLower (strTake s 7) = "bearer " ∧ rest ≠ "" ∧ rest.data.all jsDotChar then
    some rest
  else
    none

/-- The 403 `NotAllowedError` thrown by `checkAccessToken` when no JWT was
provided (`Access token not provided or invalid.`). -/
def missingTokenError : JsError :=
  .bedrockError "Access token validation failed." "NotAllowedError"
    { httpStatusCode := 403, isPublic := true,
      code := some "ERR_JWT_INVALID",
      reason := some "Access token not provided or invalid." }

/-- The `TypeError` raised by evaluating `null[1]` when
`req.get('authorization')` returned a string that does not match
`OAUTH2_TOKEN_REGEX` (message text abridged). -/
def nullIndexTypeError : JsError :=
  .typeError "Cannot read properties of null"

/-- Models the access-token extraction step of `checkAccessToken` when a
`req` is given: `jwt = req.get('authorization')?.match(OAUTH2_TOKEN_REGEX)[1]`
followed by `if(!jwt) throw ...`.  `authorization` is `none` when the
header is absent (`req.get` returns `undefined`, the optional chain
short-circuits and the 403 error is thrown); when the header is present
but unmatched, `match` returns `null` and indexing it throws a
`TypeError`. -/
def getJwtFromReq (authorization : Option String) : Except JsError String :=
  match authorization with
  | none => .error missingTokenError
  | some h =>
    match oauth2TokenRegexCapture h with
    | none => .error nullIndexTypeError
    | some jwt => .ok jwt

/-- A verified JWT payload; the only claim the scope matcher reads is
`scope` (`none` models an absent claim). -/
structure Payload where
  scope : Option String
deriving DecidableEq, Repr

/-- Models `checkAccessToken({req, ...})` on the path where a `req` (and no
`jwt`) is supplied and `audience` is given: after the argument checks, the
bearer token is extracted from the `authorization` header (before any
issuer discovery or signature verification), then the issuer-discovery
plus `jwtVerify` steps — external collaborators — are the `verify`
oracle. -/
def checkAccessToken (authorization : Option String) (audience : String)
    (verify : String → Except JsError Payload) : Except JsError Payload :=
  if audience = "" then
    .error (.typeError "\"audience\" must be a string.")
  else
    match getJwtFromReq authorization with
    | .error e => .error e
    | .ok jwt => verify jwt

/-! ## lib/targetScopedAccessToken.js -/

/-- `DEFAULT_ACTION_FOR_METHOD` — `Map` lookup (note the source lists
`['PATCH', 'write']` twice; `Map` keeps one entry). -/
def DEFAULT_ACTION_FOR_METHOD (method : String) : Option String :=
  if method = "GET" ∨ method = "HEAD" ∨ method = "OPTIONS" then
    some "read"
  else if method = "POST" ∨ method = "PUT" ∨ method = "PATCH" ∨
      method = "DELETE" ∨ method = "CONNECT" ∨ method = "TRACE" then
    some "write"
  else
    none

/-- The object returned by the caller's `getExpectedValues()`.  Field types
already reflect the JS `typeof`-string checks (a non-string value for an
optional field is out of the model; `_checkExpectedValues` rejects it
identically). -/
structure Expected where
  action : Option String
  host : String
  rootInvocationTarget : String
  target : Option String
deriving DecidableEq, Repr

/-- `_checkExpectedValues`: `rootInvocationTarget` must contain `:`
(express an absolute URI) and a supplied `target` must contain `:`. -/
def _checkExpectedValues (expected : Expected) : Except JsError Unit :=
  if ¬ strContains expected.rootInvocationTarget ':' then
    .error (.plainError
      "Expected \"rootInvocationTarget\" must be a string that expresses an absolute URI."
      "Error" none)
  else
    match expected.target with
    | some t =>
      if ¬ strContains t ':' then
        .error (.plainError
          "Expected \"target\" must be a string that expresses an absolute URI."
          "Error" none)
      else .ok ()
    | none => .ok ()

/-- The `NotSupportedError` (HTTP 400) raised when a method has no default
capability action and no explicit `action` was supplied. -/
def unsupportedMethodError (method : String) : JsError :=
  .plainError
    ("The HTTP method " ++ method ++ " has no expected capability action.")
    "NotSupportedError" (some 400)

/-- `expected.action = expected.action ?? DEFAULT_ACTION_FOR_METHOD.get(req.method)`
followed by the `undefined` check that throws `NotSupportedError`. -/
def resolveAction (explicitAction : Option String) (method : String) :
    Except JsError String :=
  match explicitAction.orElse fun _ => DEFAULT_ACTION_FOR_METHOD method with
  | some a => .ok a
  | none => .error (unsupportedMethodError method)

/-- The 403 `NotAllowedError` raised when no scope candidate authorizes the
request; it identifies the offending claim `scope`. -/
def insufficientScopeError : JsError :=
  .bedrockError "Access token validation failed." "NotAllowedError"
    { httpStatusCode := 403, isPublic := true,
      code := some "ERR_JWT_CLAIM_VALIDATION_FAILED",
      reason := some "Access token \"scope\" is insufficient.",
      claim := some "scope" }

/-- `payload.scope?.split(' ') || []` — an absent claim yields no
candidates; note JS `''.split(' ')` is `['']`, matching `splitOn`. -/
def scopeCandidates (scope : Option String) : List String :=
  match scope with
  | none => []
  | some s => jsSplitSpace s

/-- The per-candidate test of the `for(const scope of scopes)` loop body:
exact action match, then `pathScope === '/'` (full path access) or a
hierarchical path/query-attenuated match terminating just before a path or
query delimiter. -/
def scopeMatches (requiredActionScope path candidate : String) : Bool :=
  strStartsWith candidate requiredActionScope ∧
    (let pathScope := strDrop candidate (strLength requiredActionScope)
     pathScope = "/" ∨
       (strStartsWith path pathScope ∧
         (let rest := strDrop path (strLength pathScope)
          strLength rest = 0 ∨ strStartsWith rest "/" ∨ strStartsWith rest "?" ∨
            strStartsWith rest "&" ∨ strStartsWith rest "#")))

/-- The scope-matching loop: return of `true` on the first matching
candidate, fall-through to the 403 `NotAllowedError`. -/
def scopeLoop (requiredActionScope path : String) :
    List String → Except JsError Bool
  | [] => .error insufficientScopeError
  | c :: rest =>
    if scopeMatches requiredActionScope path c then .ok true
    else scopeLoop requiredActionScope path rest

/-- The tail of `checkTargetScopedAccessToken` after the token was
verified: `requiredActionScope`, the relative `path`
(`expected.target.slice(rootInvocationTarget.length) || '/'`) and the scope
loop over the payload's space-split scope. -/
def scopeCheck (scope : Option String)
    (action rootInvocationTarget target : String) : Except JsError Bool :=
  let requiredActionScope := action ++ ":"
  let sliced := strDrop target (strLength rootInvocationTarget)
  let path := if sliced = "" then "/" else sliced
  scopeLoop requiredActionScope path (scopeCandidates scope)

/-- The HTTP request interface as used by the modelled functions. -/
structure Req where
  method : String
  originalUrl : String
  authorization : Option String
deriving DecidableEq, Repr

/-- The audience-defaulting step of `checkTargetScopedAccessToken`:
`if(audience === undefined) audience = rootInvocationTarget`. -/
def resolveAudience (audience : Option String)
    (rootInvocationTarget : String) : String :=
  match audience with
  | some a => a
  | none => rootInvocationTarget

/-- Models `checkTargetScopedAccessToken`.  `expected` is the value of the
caller's `getExpectedValues({req})`; `verify` is the external
issuer-discovery-plus-`jwtVerify` collaborator invoked by the inner
`checkAccessToken` call (first argument: resolved audience, second: the
bearer JWT). -/
def checkTargetScopedAccessToken (req : Req) (expected : Expected)
    (audience : Option String)
    (verify : String → String → Except JsError Payload) :
    Except JsError Bool :=
  match _checkExpectedValues expected with
  | .error e => .error e
  | .ok _ =>
    match resolveAction expected.action req.method with
    | .error e => .error e
    | .ok action =>
      let target :=
        match expected.target with
        | some t => t
        | none => "https://" ++ expected.host ++ req.originalUrl
      if ¬ strStartsWith target expected.rootInvocationTarget then
        .error (.plainError
          ("Expected \"target\" must start with \"" ++
            expected.rootInvocationTarget ++ "\".")
          "Error" none)
      else
        let resolvedAudience :=
          resolveAudience audience expected.rootInvocationTarget
        match checkAccessToken req.authorization resolvedAudience
            (verify resolvedAudience) with
        | .error e => .error e
        | .ok payload =>
          scopeCheck payload.scope action expected.rootInvocationTarget target

/-! ## lib/discovery.js — fetch-and-validate (`_getUncachedIssuerConfig`) -/

/-- Origin and pathname of a parsed URL, the two components
`_getUncachedIssuerConfig` destructures from `new URL(...)`. -/
structure UrlParts where
  origin : String
  pathname : String
deriving DecidableEq, Repr

/-- Models the WHATWG `new URL(s)` parser restricted to plain `https://`
URLs without userinfo, port, or percent-escapes (the only shapes the
validation logic distinguishes): host runs to the first `/`, `?` or `#`;
`pathname` is `/` when no path follows; `none` models the constructor
throwing (empty host) or an input outside the modelled shape. -/
def parseHttpsUrl (s : String) : Option UrlParts :=
  if strStartsWith s "https://" then
    let rest := s.data.drop 8
    let host := rest.takeWhile fun c => ¬ (c = '/' ∨ c = '?' ∨ c = '#')
    if host = [] then none
    else
      let after := rest.drop host.length
      let pathname :=
        if after.head? = some '/' then after.takeWhile fun c => ¬ (c = '?' ∨ c = '#')
        else "/".data
      some ⟨"https://" ++ String.mk host, String.mk pathname⟩
  else none

/-- `WELL_KNOWN_REGEX = /\/\.well-known\/([^\/]+)/` applied by
`String.match`: scan left to right for a position where `/.well-known/` is
followed by at least one non-`/` character and return that maximal non-`/`
run (the capture group), else `none` — mirroring the regex engine's
one-character advance on a failed attempt. -/
def wellKnownSegment : List Char → Option String
  | [] => none
  | c :: cs =>
    let marker := "/.well-known/".data
    if marker.isPrefixOf (c :: cs) then
      let seg := ((c :: cs).drop marker.length).takeWhile (· ≠ '/')
      if seg = [] then wellKnownSegment cs else some (String.mk seg)
    else wellKnownSegment cs

/-- The `expectedConfigUrl` computed from the issuer's parsed origin and
pathname and the extracted well-known path segment:
`origin + "/.well-known/" + segment`, with the issuer's pathname appended
when it is not `/`. -/
def expectedConfigUrl (issuerParts : UrlParts) (anyPathSegment : String) :
    String :=
  let base := issuerParts.origin ++ "/.well-known/" ++ anyPathSegment
  if issuerParts.pathname ≠ "/" then base ++ issuerParts.pathname else base

/-- An `OperationError` `BedrockError` with HTTP status 500 and no extra
detail fields, as thrown by the issuer-config validation checks. -/
def operationError (message : String) : JsError :=
  .bedrockError message "OperationError" { httpStatusCode := 500, isPublic := true }

/-- The issuer/config-URL mismatch `OperationError`, reporting the
expected and actual URLs in its details. -/
def issuerMismatchError (expected actual : String) : JsError :=
  .bedrockError
    "Invalid OAuth2 issuer configuration; \"issuer\" does not match configuration URL."
    "OperationError"
    { httpStatusCode := 500, isPublic := true,
      expected := some expected, actual := some actual }

/-- The `issuer`/`jwks_uri` fields of the fetched issuer metadata document
(`response.data`); `none` models a field that is absent or not a string —
both fail the `typeof ... === 'string'` check identically. -/
structure ConfigData where
  issuer : Option String
  jwks_uri : Option String
deriving DecidableEq, Repr

/-- The cached trust record built by `_getUncachedIssuerConfig`:
`{issuer, jwks, config, next, expires}`.  `jwks` is the opaque key-set
handle (an allocation id), `next` the rotation promise (`none` models
`null`), `expires` a wall-clock timestamp in ms. -/
structure IssuerRecord where
  issuer : String
  jwks : Nat
  config : ConfigData
  next : Option Nat
  expires : Nat
deriving DecidableEq, Repr

/-- Models `_getUncachedIssuerConfig` through record creation.  Network
and JOSE collaborators are oracles: `configData` is the first fetch's
`response.data` (`none` = falsy/non-JSON), `jwksData` maps the `jwks_uri`
to the second fetch's `response.data` (an opaque document id), and
`createLocalJWKSet` maps a document to a key-set handle or fails.  `now`
is `Date.now()` at record creation and `maxAge` the cache's configured
max-age.  The second component is the chronological log of fetched URLs.
Rotation scheduling (`record.next`) is modelled separately; the returned
record carries `next := none` as constructed (`next: null`). -/
def getUncachedIssuerConfig (issuerConfigUrl : String)
    (configData : Option ConfigData)
    (jwksData : String → Option Nat)
    (createLocalJWKSet : Nat → Option Nat)
    (now maxAge : Nat) : Except JsError IssuerRecord × List String :=
  let fetched := [issuerConfigUrl]
  match configData with
  | none =>
    (.error (operationError
      "Invalid OAuth2 issuer configuration; format is not JSON."), fetched)
  | some config =>
    match config.issuer with
    | none =>
      (.error (operationError
        "Invalid OAuth2 issuer configuration; \"issuer\" is not an HTTPS URL."),
       fetched)
    | some issuer =>
      if ¬ strStartsWith issuer "https://" then
        (.error (operationError
          "Invalid OAuth2 issuer configuration; \"issuer\" is not an HTTPS URL."),
         fetched)
      else
        match config.jwks_uri with
        | none =>
          (.error (operationError
            "Invalid OAuth2 issuer configuration; \"jwks_uri\" is not an HTTPS URL."),
           fetched)
        | some jwks_uri =>
          if ¬ strStartsWith jwks_uri "https://" then
            (.error (operationError
              "Invalid OAuth2 issuer configuration; \"jwks_uri\" is not an HTTPS URL."),
             fetched)
          else
            match parseHttpsUrl issuerConfigUrl with
            | none => (.error (.typeError "Invalid URL"), fetched)
            | some urlParts =>
              match wellKnownSegment urlParts.pathname.data with
              | none => (.error nullIndexTypeError, fetched)
              | some anyPathSegment =>
                match parseHttpsUrl issuer with
                | none => (.error (.typeError "Invalid URL"), fetched)
                | some issuerParts =>
                  let expected := expectedConfigUrl issuerParts anyPathSegment
                  if issuerConfigUrl ≠ expected then
                    (.error (issuerMismatchError expected issuerConfigUrl),
                     fetched)
                  else
                    let fetched := fetched ++ [jwks_uri]
                    match jwksData jwks_uri with
                    | none =>
                      (.error (operationError
                        "Invalid OAuth2 issuer \"jwk_uri\" response; format is not JSON."),
                       fetched)
                    | some doc =>
                      match createLocalJWKSet doc with
                      | none =>
                        (.error (operationError
                          "Invalid OAuth2 issuer \"jwk_uri\" response; JSON Web Key Set is malformed."),
                         fetched)
                      | some jwks =>
                        (.ok { issuer := issuer, jwks := jwks,
                               config := config, next := none,
                               expires := now + maxAge * 2 },
                         fetched)

/-! ## lib/discovery.js — issuer-config cache (`discoverIssuer`, rotation)

The cache store maps an issuer-config URL to the promise currently cached
for it.  Promises and the opaque objects they resolve to are identified by
`Nat` allocation ids, so that the source's `===` identity comparisons are
equality of ids.  The store itself is an association list (recency order
is irrelevant to every claim below). -/

/-- Association-list lookup (`cache.peek`/`cache.get` as far as the stored
value is concerned). -/
def alistLookup {κ α : Type} [DecidableEq κ] (k : κ) :
    List (κ × α) → Option α
  | [] => none
  | (k2, v) :: rest => if k2 = k then some v else alistLookup k rest

/-- Association-list update (`cache.set`). -/
def alistSet {κ α : Type} [DecidableEq κ] (k : κ) (v : α) :
    List (κ × α) → List (κ × α)
  | [] => [(k, v)]
  | (k2, v2) :: rest =>
    if k2 = k then (k, v) :: rest else (k2, v2) :: alistSet k v rest

/-- Association-list deletion (`cache.delete`). -/
def alistErase {κ α : Type} [DecidableEq κ] (k : κ) :
    List (κ × α) → List (κ × α)
  | [] => []
  | (k2, v2) :: rest =>
    if k2 = k then alistErase k rest else (k2, v2) :: alistErase k rest

/-- State of the memoize cache for the single-flight model: the entries
(key to promise id), the allocation counter for promise ids, and the
number of times the memoized `fn` (that is,
`_getUncachedIssuerConfig`) has been invoked. -/
structure MemoState where
  entries : List (String × Nat)
  nextId : Nat
  fnRuns : Nat
deriving DecidableEq, Repr

/-- Modelled from the spec: the single-flight `memoize` operation of the
ExpiringMemoCache (§4.1) — implemented by the external
`@digitalbazaar/lru-memoize` collaborator, which is not under `src/`.  A
`memoize({key, fn})` call runs synchronously (JavaScript run-to-completion)
from the cache probe through storing the promise produced by `fn()`, so it
is one atomic step on the cache state: a hit returns the stored promise; a
miss invokes `fn` once (counted by `fnRuns`) and stores the fresh promise
under a fresh id. -/
def memoizeStep (key : String) (s : MemoState) : Nat × MemoState :=
  match alistLookup key s.entries with
  | some p => (p, s)
  | none =>
    (s.nextId,
     { entries := (key, s.nextId) :: s.entries,
       nextId := s.nextId + 1, fnRuns := s.fnRuns + 1 })

/-- `n` concurrent `discoverIssuer` callers that all reach their
(atomic) `memoize` step before the underlying fetch settles, in arrival
order: the list collects the promise each caller will await. -/
def memoizeN (key : String) : Nat → MemoState → List Nat × MemoState
  | 0, s => ([], s)
  | n + 1, s =>
    let step := memoizeStep key s
    let rest := memoizeN key n step.2
    (step.1 :: rest.1, rest.2)

/-- Models the settle-time continuation of the rotation timer in
`_getUncachedIssuerConfig`:
`promise.then(() => { if(current === peek(url)) set(url, promise) }).catch(() => {})`.
`cacheAtSettle` is the cache when the background re-fetch settles,
`current` the pre-rotation cached promise and `newPromise` the background
fetch's promise; `outcome` is what that fetch settles to.  The second
component is the error (if any) surfaced to `resolve` callers: rotation
failures are swallowed by the `.catch` (and `record.next` resolves with
the error as a value via `promise.catch(e => e)`), so it is always
`none`. -/
def rotationOnSettle (cacheAtSettle : List (String × Nat))
    (issuerConfigUrl : String) (current newPromise : Nat)
    (outcome : Except JsError IssuerRecord) :
    List (String × Nat) × Option JsError :=
  match outcome with
  | .ok _ =>
    (if alistLookup issuerConfigUrl cacheAtSettle = some current then
       alistSet issuerConfigUrl newPromise cacheAtSettle
     else cacheAtSettle,
     none)
  | .error _ => (cacheAtSettle, none)

/-- The shape of the object `discoverIssuer` returns: the fresh-cache path
builds the literal `{issuer, jwks, config}`, while the stale-fallback path
returns the raw record from `_getUncachedIssuerConfig` (which also carries
`next` and `expires`). -/
inductive DiscoverShape where
  | trimmed (issuer : String) (jwks : Nat) (config : ConfigData)
  | record (r : IssuerRecord)
deriving DecidableEq, Repr

/-- The own enumerable property names of the returned JavaScript object
for each shape, in insertion order. -/
def DiscoverShape.keys : DiscoverShape → List String
  | .trimmed _ _ _ => ["issuer", "jwks", "config"]
  | .record _ => ["issuer", "jwks", "config", "next", "expires"]

/-- Models `discoverIssuer` from `const record = await promise` onward:
`promise` is the promise peeked before the await, `record` what it
resolved to, `cacheAtCheck` the cache at the synchronous expiry check
(it may have changed during the await), `refetch` the record produced by
the forced `_getUncachedIssuerConfig` on the stale path, and `allocId`
the allocation id of the object the call returns.  Returns the updated
cache and the returned object (allocation id paired with its shape). -/
def discoverIssuerTail (cacheAtCheck : List (String × Nat)) (key : String)
    (promise : Nat) (record : IssuerRecord) (now : Nat)
    (refetch : IssuerRecord) (allocId : Nat) :
    List (String × Nat) × (Nat × DiscoverShape) :=
  if record.expires < now then
    let cache2 :=
      if alistLookup key cacheAtCheck = some promise then
        alistErase key cacheAtCheck
      else cacheAtCheck
    (cache2, (allocId, .record refetch))
  else
    (cacheAtCheck, (allocId, .trimmed record.issuer record.jwks record.config))

/-- Sequential-execution state of the issuer-config cache: the cache
store, the records the stored promises have settled to, the allocation
counter and the number of `_getUncachedIssuerConfig` invocations. -/
structure DiscoveryState where
  cache : List (String × Nat)
  settled : List (Nat × IssuerRecord)
  nextId : Nat
  fnRuns : Nat
deriving DecidableEq, Repr

/-- Models one complete `discoverIssuer({issuerConfigUrl})` call executing
without interleaving (no concurrent caller or timer runs during it):
memoize, peek, await the settled record, then the expiry check.  `fetch`
gives the record produced by the `i`-th `_getUncachedIssuerConfig`
invocation.  Returns `none` when the awaited promise is not settled in
`s.settled` (such an execution is outside this sequential model);
otherwise the returned object (allocation id and shape) and the new
state. -/
def discoverIssuerSeq (key : String) (now : Nat)
    (fetch : Nat → IssuerRecord) (s : DiscoveryState) :
    Option ((Nat × DiscoverShape) × DiscoveryState) :=
  let s1 :=
    match alistLookup key s.cache with
    | some _ => s
    | none =>
      { cache := (key, s.nextId) :: s.cache,
        settled := (s.nextId, fetch s.fnRuns) :: s.settled,
        nextId := s.nextId + 1, fnRuns := s.fnRuns + 1 }
  match alistLookup key s1.cache with
  | none => none
  | some promise =>
    match alistLookup promise s1.settled with
    | none => none
    | some record =>
      if record.expires < now then
        let cache2 :=
          if alistLookup key s1.cache = some promise then
            alistErase key s1.cache
          else s1.cache
        some ((s1.nextId, .record (fetch s1.fnRuns)),
          { cache := cache2, settled := s1.settled,
            nextId := s1.nextId + 1, fnRuns := s1.fnRuns + 1 })
      else
        some ((s1.nextId, .trimmed record.issuer record.jwks record.config),
          { s1 with nextId := s1.nextId + 1 })

/-! ## Specification-side predicates -/

/-- The authorization condition claimed for a single space-delimited scope
candidate, following the specification's words: the candidate starts with
`action + ":"`, and its remaining path part either equals `/` or is a
prefix of the relative path such that the character in the relative path
immediately after the matched prefix is end-of-string, `/`, `?`, `&` or
`#`. -/
def candidateAuthorizes (action relativePath c : String) : Prop :=
  strStartsWith c (action ++ ":") = true ∧
    (strDrop c (strLength (action ++ ":")) = "/" ∨
      (strStartsWith relativePath (strDrop c (strLength (action ++ ":"))) = true ∧
        (strDrop relativePath (strLength (strDrop c (strLength (action ++ ":")))) = "" ∨
          strStartsWith
            (strDrop relativePath (strLength (strDrop c (strLength (action ++ ":"))))) "/" = true ∨
          strStartsWith
            (strDrop relativePath (strLength (strDrop c (strLength (action ++ ":"))))) "?" = true ∨
          strStartsWith
            (strDrop relativePath (strLength (strDrop c (strLength (action ++ ":"))))) "&" = true ∨
          strStartsWith
            (strDrop relativePath (strLength (strDrop c (strLength (action ++ ":"))))) "#" = true)))

instance (action relativePath c : String) :
    Decidable (candidateAuthorizes action relativePath c) := by
  unfold candidateAuthorizes; infer_instance

/-- The relative path the specification derives from an `ExpectedAccess`:
the target with the root invocation target removed, the empty remainder
becoming `/`. -/
def specRelativePath (rootInvocationTarget target : String) : String :=
  if strDrop target (strLength rootInvocationTarget) = "" then "/"
  else strDrop target (strLength rootInvocationTarget)

/-! ## Helper lemmas -/

theorem string_eq_empty_iff_length (s : String) : strLength s = 0 ↔ s = "" := by
  rw [String.ext_iff]
  exact List.length_eq_zero

theorem except_bind_ok {ε α β : Type} (a : α) (f : α → Except ε β) :
    (Except.ok a >>= f) = f a := rfl

theorem except_bind_error {ε α β : Type} (e : ε) (f : α → Except ε β) :
    ((Except.error e : Except ε α) >>= f) = Except.error e := rfl

theorem alistLookup_set_self {κ α : Type} [DecidableEq κ] (k : κ) (v : α)
    (l : List (κ × α)) : alistLookup k (alistSet k v l) = some v := by
  induction l with
  | nil => simp [alistSet, alistLookup]
  | cons hd tl ih =>
    rcases hd with ⟨k2, v2⟩
    by_cases h : k2 = k
    · subst h
      simp [alistSet, alistLookup]
    · simp [alistSet, h, alistLookup, ih]

theorem alistLookup_set_ne {κ α : Type} [DecidableEq κ] (k k2 : κ) (v : α)
    (l : List (κ × α)) (h : k2 ≠ k) :
    alistLookup k2 (alistSet k v l) = alistLookup k2 l := by
  have h2 : k ≠ k2 := fun hh => h hh.symm
  induction l with
  | nil => simp [alistSet, alistLookup, h2]
  | cons hd tl ih =>
    rcases hd with ⟨k3, v3⟩
    by_cases h3 : k3 = k
    · subst h3
      simp [alistSet, alistLookup, h2]
    · simp [alistSet, h3, alistLookup, ih]

/-! ## Claim C9 -/

/-- Claim C9: for every request whose `authorization` header is present but
does not match `Bearer <token>` (for example a `Basic` header),
`checkAccessToken` throws a `TypeError` from indexing the `null`
regex-match result, rather than the 403 `NotAllowedError` it throws when
the header is entirely absent. -/
theorem checkAccessToken_nonBearer_typeError (header audience : String)
    (verify : String → Except JsError Payload)
    (hm : oauth2TokenRegexCapture header = none) (ha : audience ≠ "") :
    checkAccessToken (some header) audience verify =
        .error nullIndexTypeError ∧
      checkAccessToken none audience verify = .error missingTokenError := by
  have hg : getJwtFromReq (some header) = .error nullIndexTypeError := by
    show (match oauth2TokenRegexCapture header with
          | none => (.error nullIndexTypeError : Except JsError String)
          | some jwt => .ok jwt) = .error nullIndexTypeError
    rw [hm]
  constructor
  · unfold checkAccessToken
    rw [if_neg ha, hg]
  · unfold checkAccessToken
    rw [if_neg ha]
    rfl

/-- Witness for C9 at the concrete header `Basic abc`. -/
theorem checkAccessToken_nonBearer_typeError_witness :
    checkAccessToken (some "Basic abc") "https://a"
        (fun _ => .ok ⟨none⟩) = .error nullIndexTypeError ∧
      checkAccessToken none "https://a" (fun _ => .ok ⟨none⟩) =
        .error missingTokenError :=
  checkAccessToken_nonBearer_typeError "Basic abc" "https://a" _
    (by decide) (by decide)

/-! ## Claim C7 -/

/-- Claim C7: with no explicit expected action, the action resolves to
`read` for GET, HEAD and OPTIONS, to `write` for POST, PUT, PATCH, DELETE,
CONNECT and TRACE, and for any other method (e.g. `PURGE`)
`checkTargetScopedAccessToken` raises the hard unsupported-method error
before any token or scope checking (in particular, independently of the
token-verification collaborator and of the request's `authorization`
header). -/
theorem checkTargetScoped_action_defaulting (m : String) :
    ((m = "GET" ∨ m = "HEAD" ∨ m = "OPTIONS") →
        resolveAction none m = .ok "read") ∧
      ((m = "POST" ∨ m = "PUT" ∨ m = "PATCH" ∨ m = "DELETE" ∨
          m = "CONNECT" ∨ m = "TRACE") →
        resolveAction none m = .ok "write") ∧
      (DEFAULT_ACTION_FOR_METHOD m = none →
        ∀ (req : Req) (expected : Expected) (audience : Option String)
          (verify : String → String → Except JsError Payload),
          req.method = m → expected.action = none →
          _checkExpectedValues expected = .ok () →
          checkTargetScopedAccessToken req expected audience verify =
            .error (unsupportedMethodError m)) := by
  refine ⟨?_, ?_, ?_⟩
  · rintro (h | h | h) <;> simp [resolveAction, DEFAULT_ACTION_FOR_METHOD, h,
      Option.orElse]
  · rintro (h | h | h | h | h | h) <;>
      simp [resolveAction, DEFAULT_ACTION_FOR_METHOD, h, Option.orElse]
  · intro hnone req expected audience verify hm hact hchk
    have hra : resolveAction expected.action req.method =
        .error (unsupportedMethodError m) := by
      simp [resolveAction, Option.orElse, hact, hm, hnone]
    simp only [checkTargetScopedAccessToken, hchk, hra]

/-- Witness for C7 at the concrete methods `GET`, `CONNECT` and `PURGE`. -/
theorem checkTargetScoped_action_defaulting_witness :
    resolveAction none "GET" = .ok "read" ∧
      resolveAction none "CONNECT" = .ok "write" ∧
      checkTargetScopedAccessToken
          { method := "PURGE", originalUrl := "/x",
            authorization := some "Bearer t" }
          { action := none, host := "h",
            rootInvocationTarget := "https://h", target := none }
          none (fun _ _ => .ok ⟨some "read:/"⟩) =
        .error (unsupportedMethodError "PURGE") :=
  ⟨(checkTargetScoped_action_defaulting "GET").1 (Or.inl rfl),
   (checkTargetScoped_action_defaulting "CONNECT").2.1 (by simp),
   (checkTargetScoped_action_defaulting "PURGE").2.2 (by decide) _ _ _ _
     rfl rfl rfl⟩

/-! ## Claim C10 -/

/-- Claim C10: for every `issuerConfigUrl` whose path contains no
`/.well-known/<segment>` component, once the metadata fetch succeeds and
the `issuer` and `jwks_uri` HTTPS-string checks pass, the uncached
fetch-and-validate throws a `TypeError` from matching `null` against the
well-known regex (indexing `[1]` on the `null` match result), not the
issuer/URL-mismatch validation error. -/
theorem getUncached_no_wellknown_typeError
    (issuerConfigUrl issuer jwks_uri : String)
    (jwksData : String → Option Nat) (createLocalJWKSet : Nat → Option Nat)
    (now maxAge : Nat) (urlParts : UrlParts)
    (hi : strStartsWith issuer "https://" = true)
    (hj : strStartsWith jwks_uri "https://" = true)
    (hu : parseHttpsUrl issuerConfigUrl = some urlParts)
    (hw : wellKnownSegment urlParts.pathname.data = none) :
    getUncachedIssuerConfig issuerConfigUrl
        (some ⟨some issuer, some jwks_uri⟩) jwksData createLocalJWKSet
        now maxAge =
      (.error nullIndexTypeError, [issuerConfigUrl]) := by
  unfold getUncachedIssuerConfig
  simp only [hi, hj, hu, hw]
  simp

/-- Witness for C10 at the concrete config URL
`https://idp.example/config` (no well-known component). -/
theorem getUncached_no_wellknown_typeError_witness :
    getUncachedIssuerConfig "https://idp.example/config"
        (some ⟨some "https://idp.example", some "https://idp.example/jwks"⟩)
        (fun _ => some 0) (fun _ => some 0) 0 600000 =
      (.error nullIndexTypeError, ["https://idp.example/config"]) :=
  getUncached_no_wellknown_typeError _ _ _ _ _ _ _
    ⟨"https://idp.example", "/config"⟩
    (by decide) (by decide) (by decide) (by decide)

/-! ## Claim C8 -/

/-- Claim C8 (amended): every record built by `_getUncachedIssuerConfig`
has its expiry equal to its creation time plus twice the cache's
configured max-age; whenever the configured max-age is positive this is
strictly greater than the per-entry max-age (soft rotation) deadline,
while for a zero configured max-age the two deadlines coincide. -/
theorem record_expires_twice_maxAge
    (issuerConfigUrl : String) (configData : Option ConfigData)
    (jwksData : String → Option Nat) (createLocalJWKSet : Nat → Option Nat)
    (now maxAge : Nat) (r : IssuerRecord)
    (hr : (getUncachedIssuerConfig issuerConfigUrl configData jwksData
        createLocalJWKSet now maxAge).1 = .ok r) :
    r.expires = now + maxAge * 2 ∧
      (0 < maxAge → now + maxAge < r.expires) := by
  unfold getUncachedIssuerConfig at hr
  repeat' split at hr
  all_goals simp_all
  all_goals try (split at hr <;> simp_all)
  subst hr
  exact ⟨rfl, fun h => by show now + maxAge < now + maxAge * 2; omega⟩

/-- Witness for C8 at a concrete successful validation with max-age 5. -/
theorem record_expires_twice_maxAge_witness :
    ∃ r, (getUncachedIssuerConfig
        "https://idp.example/.well-known/oauth-authorization-server"
        (some ⟨some "https://idp.example", some "https://idp.example/jwks"⟩)
        (fun _ => some 0) (fun _ => some 0) 100 5).1 = .ok r ∧
      r.expires = 100 + 5 * 2 ∧ (0 < 5 → 100 + 5 < r.expires) := by
  refine ⟨{ issuer := "https://idp.example", jwks := 0,
            config := ⟨some "https://idp.example",
              some "https://idp.example/jwks"⟩,
            next := none, expires := 110 }, by decide, ?_⟩
  exact record_expires_twice_maxAge
    "https://idp.example/.well-known/oauth-authorization-server"
    (some ⟨some "https://idp.example", some "https://idp.example/jwks"⟩)
    (fun _ => some 0) (fun _ => some 0) 100 5
    { issuer := "https://idp.example", jwks := 0,
      config := ⟨some "https://idp.example",
        some "https://idp.example/jwks"⟩,
      next := none, expires := 110 }
    (by decide)

/-- Counterexample for C8 as stated: with a configured max-age of 0 — a
configuration under which records are still created — the record's expiry
equals (is not strictly greater than) the soft rotation deadline. -/
theorem record_expires_not_strict_at_zero :
    (getUncachedIssuerConfig
        "https://idp.example/.well-known/oauth-authorization-server"
        (some ⟨some "https://idp.example", some "https://idp.example/jwks"⟩)
        (fun _ => some 0) (fun _ => some 0) 1000 0).1 =
      .ok { issuer := "https://idp.example", jwks := 0,
            config := ⟨some "https://idp.example",
              some "https://idp.example/jwks"⟩,
            next := none, expires := 1000 } ∧
      ¬ (1000 + 0 < 1000) := by
  constructor
  · decide
  · decide

/-! ## Claim C2 -/

/-- Claim C2: for every fetched issuer metadata document and
`issuerConfigUrl`, validation computes the expected config URL as
`origin(issuer) + "/.well-known/" + segment + (pathname(issuer) when it is
not "/")` — where `segment` is the path segment following `/.well-known/`
in `issuerConfigUrl` — and the resolution fails with the
issuer/URL-mismatch validation error (reporting both expected and actual
URLs) exactly when `issuerConfigUrl` is not character-for-character equal
to that expected URL. -/
theorem getUncached_issuer_url_binding
    (issuerConfigUrl issuer jwks_uri : String)
    (jwksData : String → Option Nat) (createLocalJWKSet : Nat → Option Nat)
    (now maxAge : Nat) (urlParts issuerParts : UrlParts) (seg : String)
    (hi : strStartsWith issuer "https://" = true)
    (hj : strStartsWith jwks_uri "https://" = true)
    (hu : parseHttpsUrl issuerConfigUrl = some urlParts)
    (hw : wellKnownSegment urlParts.pathname.data = some seg)
    (hp : parseHttpsUrl issuer = some issuerParts) :
    expectedConfigUrl issuerParts seg =
        issuerParts.origin ++ "/.well-known/" ++ seg ++
          (if issuerParts.pathname ≠ "/" then issuerParts.pathname else "") ∧
      ((∃ e a,
          (getUncachedIssuerConfig issuerConfigUrl
              (some ⟨some issuer, some jwks_uri⟩) jwksData createLocalJWKSet
              now maxAge).1 = .error (issuerMismatchError e a)) ↔
        issuerConfigUrl ≠ expectedConfigUrl issuerParts seg) ∧
      (issuerConfigUrl ≠ expectedConfigUrl issuerParts seg →
        (getUncachedIssuerConfig issuerConfigUrl
            (some ⟨some issuer, some jwks_uri⟩) jwksData createLocalJWKSet
            now maxAge).1 =
          .error (issuerMismatchError (expectedConfigUrl issuerParts seg)
            issuerConfigUrl)) := by
  refine ⟨?_, ?_, ?_⟩
  · unfold expectedConfigUrl
    by_cases h : issuerParts.pathname = "/"
    · simp [h]
    · simp [h]
  · unfold getUncachedIssuerConfig
    simp only [hi, hj, hu, hw, hp]
    by_cases hne : issuerConfigUrl = expectedConfigUrl issuerParts seg
    · subst hne
      constructor
      · rintro ⟨e, a, hres⟩
        rcases hjw : jwksData jwks_uri with _ | doc
        · simp [hjw, operationError, issuerMismatchError] at hres
        · rcases hcl : createLocalJWKSet doc with _ | ks
          · simp [hjw, hcl, operationError, issuerMismatchError] at hres
          · simp [hjw, hcl, issuerMismatchError] at hres
      · intro hcontra
        exact absurd rfl hcontra
    · constructor
      · intro _
        exact hne
      · intro _
        refine ⟨expectedConfigUrl issuerParts seg, issuerConfigUrl, ?_⟩
        simp [hne]
  · intro hne
    unfold getUncachedIssuerConfig
    simp only [hi, hj, hu, hw, hp]
    simp [hne]

/-- Witness for C2 at the RFC 8414 example: issuer
`https://idp.example/tenant/a` demands the config URL
`https://idp.example/.well-known/oauth-authorization-server/tenant/a`, so
the plain well-known URL is rejected with the mismatch error reporting
both. -/
theorem getUncached_issuer_url_binding_witness :
    (getUncachedIssuerConfig
        "https://idp.example/.well-known/oauth-authorization-server"
        (some ⟨some "https://idp.example/tenant/a",
          some "https://idp.example/jwks"⟩)
        (fun _ => some 0) (fun _ => some 0) 0 600000).1 =
      .error (issuerMismatchError
        "https://idp.example/.well-known/oauth-authorization-server/tenant/a"
        "https://idp.example/.well-known/oauth-authorization-server") := by
  have h := getUncached_issuer_url_binding
    "https://idp.example/.well-known/oauth-authorization-server"
    "https://idp.example/tenant/a" "https://idp.example/jwks"
    (fun _ => some 0) (fun _ => some 0) 0 600000
    ⟨"https://idp.example", "/.well-known/oauth-authorization-server"⟩
    ⟨"https://idp.example", "/tenant/a"⟩ "oauth-authorization-server"
    (by decide) (by decide) (by decide) (by decide) (by decide)
  have h3 := h.2.2 (by decide)
  exact h3

/-! ## Claim C3 -/

theorem memoizeN_hit (key : String) (p : Nat) (n : Nat) :
    ∀ (s : MemoState), alistLookup key s.entries = some p →
      memoizeN key n s = (List.replicate n p, s) := by
  induction n with
  | zero => intro s h; rfl
  | succ n ih =>
    intro s h
    unfold memoizeN memoizeStep
    simp [h, ih s h, List.replicate_succ]

theorem getUncached_ok_fetchLog (issuerConfigUrl issuer jwks_uri : String)
    (jwksData : String → Option Nat) (createLocalJWKSet : Nat → Option Nat)
    (now maxAge : Nat) (r : IssuerRecord)
    (hr : (getUncachedIssuerConfig issuerConfigUrl
        (some ⟨some issuer, some jwks_uri⟩) jwksData createLocalJWKSet
        now maxAge).1 = .ok r) :
    (getUncachedIssuerConfig issuerConfigUrl
        (some ⟨some issuer, some jwks_uri⟩) jwksData createLocalJWKSet
        now maxAge).2 = [issuerConfigUrl, jwks_uri] := by
  unfold getUncachedIssuerConfig at hr ⊢
  by_cases h1 : strStartsWith issuer "https://" = true
  · by_cases h2 : strStartsWith jwks_uri "https://" = true
    · rcases h3 : parseHttpsUrl issuerConfigUrl with _ | up
      · simp [h1, h2, h3] at hr
      · rcases h4 : wellKnownSegment up.pathname.data with _ | seg
        · simp [h1, h2, h3, h4] at hr
        · rcases h5 : parseHttpsUrl issuer with _ | ip
          · simp [h1, h2, h3, h4, h5] at hr
          · by_cases h6 : issuerConfigUrl = expectedConfigUrl ip seg
            · subst h6
              rcases h7 : jwksData jwks_uri with _ | doc
              · simp [h1, h2, h3, h4, h5, h7] at hr
              · rcases h8 : createLocalJWKSet doc with _ | ks
                · simp [h1, h2, h3, h4, h5, h7, h8] at hr
                · simp [h1, h2, h3, h4, h5, h7, h8]
            · simp [h1, h2, h3, h4, h5, h6] at hr
    · simp [h1, h2] at hr
  · simp [h1] at hr

/-- Claim C3: N concurrent `discoverIssuer` callers for the same uncached
`issuerConfigUrl` — each of whose (atomic, run-to-completion) `memoize`
steps happens before the shared fetch settles — spawn exactly one
`_getUncachedIssuerConfig` invocation, every caller awaits the identical
shared promise (and hence observes the result of that single shared
fetch), and the single successful invocation performs exactly one metadata
fetch followed by one key-set fetch. -/
theorem discover_single_flight (key : String) (s : MemoState) (n : Nat)
    (h : alistLookup key s.entries = none) :
    ((memoizeN key (n + 1) s).1 = List.replicate (n + 1) s.nextId ∧
      (memoizeN key (n + 1) s).2.fnRuns = s.fnRuns + 1) ∧
    (∀ (issuerConfigUrl issuer jwks_uri : String)
        (jwksData : String → Option Nat)
        (createLocalJWKSet : Nat → Option Nat) (now maxAge : Nat)
        (r : IssuerRecord),
      (getUncachedIssuerConfig issuerConfigUrl
          (some ⟨some issuer, some jwks_uri⟩) jwksData createLocalJWKSet
          now maxAge).1 = .ok r →
      (getUncachedIssuerConfig issuerConfigUrl
          (some ⟨some issuer, some jwks_uri⟩) jwksData createLocalJWKSet
          now maxAge).2 = [issuerConfigUrl, jwks_uri]) := by
  have hstep : memoizeStep key s =
      (s.nextId, ⟨(key, s.nextId) :: s.entries, s.nextId + 1, s.fnRuns + 1⟩) := by
    unfold memoizeStep
    rw [h]
  have hhit : alistLookup key ((key, s.nextId) :: s.entries) = some s.nextId := by
    simp [alistLookup]
  have hrec := memoizeN_hit key s.nextId n
    ⟨(key, s.nextId) :: s.entries, s.nextId + 1, s.fnRuns + 1⟩ hhit
  refine ⟨⟨?_, ?_⟩, ?_⟩
  · unfold memoizeN
    simp [hstep, hrec, List.replicate_succ]
  · unfold memoizeN
    simp [hstep, hrec]
  · intro issuerConfigUrl issuer jwks_uri jwksData createLocalJWKSet now
      maxAge r hr
    exact getUncached_ok_fetchLog issuerConfigUrl issuer jwks_uri jwksData
      createLocalJWKSet now maxAge r hr

/-- Witness for C3: three concurrent callers on an empty cache share one
promise and one fetch; a concrete successful validation fetches exactly
the config URL then the key-set URL. -/
theorem discover_single_flight_witness :
    ((memoizeN "https://idp.example/.well-known/oauth-authorization-server"
        3 ⟨[], 0, 0⟩).1 = [0, 0, 0] ∧
      (memoizeN "https://idp.example/.well-known/oauth-authorization-server"
        3 ⟨[], 0, 0⟩).2.fnRuns = 0 + 1) ∧
    (getUncachedIssuerConfig
        "https://idp.example/.well-known/oauth-authorization-server"
        (some ⟨some "https://idp.example", some "https://idp.example/jwks"⟩)
        (fun _ => some 0) (fun _ => some 0) 0 600000).2 =
      ["https://idp.example/.well-known/oauth-authorization-server",
        "https://idp.example/jwks"] := by
  have h := discover_single_flight
    "https://idp.example/.well-known/oauth-authorization-server"
    ⟨[], 0, 0⟩ 2 (by decide)
  refine ⟨⟨h.1.1, h.1.2⟩, ?_⟩
  exact h.2 "https://idp.example/.well-known/oauth-authorization-server"
    "https://idp.example" "https://idp.example/jwks"
    (fun _ => some 0) (fun _ => some 0) 0 600000
    { issuer := "https://idp.example", jwks := 0,
      config := ⟨some "https://idp.example", some "https://idp.example/jwks"⟩,
      next := none, expires := 1200000 }
    (by decide)

/-! ## Claim C4 -/

/-- Claim C4: when a rotation's background re-fetch settles successfully,
the cache entry for the key is replaced with the new promise only if the
stored entry is still identity-equal to the pre-rotation one (other keys
are untouched); otherwise the new record is discarded silently (the cache
is unchanged).  When the background re-fetch fails, the cache is left
unchanged, and in every case no error is surfaced to any resolve
caller. -/
theorem rotation_settle_swap (cacheAtSettle : List (String × Nat))
    (issuerConfigUrl : String) (current newPromise : Nat) :
    (∀ rec : IssuerRecord,
      (alistLookup issuerConfigUrl cacheAtSettle = some current →
        alistLookup issuerConfigUrl
            (rotationOnSettle cacheAtSettle issuerConfigUrl current
              newPromise (.ok rec)).1 = some newPromise ∧
          ∀ k, k ≠ issuerConfigUrl →
            alistLookup k (rotationOnSettle cacheAtSettle issuerConfigUrl
              current newPromise (.ok rec)).1 =
              alistLookup k cacheAtSettle) ∧
      (alistLookup issuerConfigUrl cacheAtSettle ≠ some current →
        (rotationOnSettle cacheAtSettle issuerConfigUrl current newPromise
          (.ok rec)).1 = cacheAtSettle)) ∧
    (∀ e : JsError,
      (rotationOnSettle cacheAtSettle issuerConfigUrl current newPromise
        (.error e)).1 = cacheAtSettle) ∧
    (∀ outcome : Except JsError IssuerRecord,
      (rotationOnSettle cacheAtSettle issuerConfigUrl current newPromise
        outcome).2 = none) := by
  refine ⟨fun rec => ⟨fun hcur => ?_, fun hncur => ?_⟩,
    fun e => rfl, fun outcome => ?_⟩
  · unfold rotationOnSettle
    rw [if_pos hcur]
    exact ⟨alistLookup_set_self _ _ _,
      fun k hk => alistLookup_set_ne _ _ _ _ hk⟩
  · unfold rotationOnSettle
    rw [if_neg hncur]
  · cases outcome <;> rfl

/-- Witness for C4 at a concrete two-entry cache: the matching entry is
swapped (the other is untouched), a mismatching pre-rotation promise
leaves the cache unchanged, and failures change nothing and surface
nothing. -/
theorem rotation_settle_swap_witness :
    alistLookup "u" [("u", 0), ("v", 3)] = some 0 ∧
      alistLookup "u" (rotationOnSettle [("u", 0), ("v", 3)] "u" 0 5
        (.ok ⟨"i", 1, ⟨none, none⟩, none, 10⟩)).1 = some 5 ∧
      alistLookup "v" (rotationOnSettle [("u", 0), ("v", 3)] "u" 0 5
        (.ok ⟨"i", 1, ⟨none, none⟩, none, 10⟩)).1 =
        alistLookup "v" [("u", 0), ("v", 3)] ∧
      alistLookup "u" [("u", 9), ("v", 3)] ≠ some 0 ∧
      (rotationOnSettle [("u", 9), ("v", 3)] "u" 0 5
        (.ok ⟨"i", 1, ⟨none, none⟩, none, 10⟩)).1 = [("u", 9), ("v", 3)] ∧
      (rotationOnSettle [("u", 0), ("v", 3)] "u" 0 5
        (.error (operationError "boom"))).1 = [("u", 0), ("v", 3)] ∧
      (rotationOnSettle [("u", 0), ("v", 3)] "u" 0 5
        (.error (operationError "boom"))).2 = none := by
  have h1 := rotation_settle_swap [("u", 0), ("v", 3)] "u" 0 5
  have h2 := rotation_settle_swap [("u", 9), ("v", 3)] "u" 0 5
  refine ⟨by decide,
    (h1.1 ⟨"i", 1, ⟨none, none⟩, none, 10⟩).1 (by decide) |>.1,
    (h1.1 ⟨"i", 1, ⟨none, none⟩, none, 10⟩).1 (by decide) |>.2 "v" (by decide),
    by decide,
    (h2.1 ⟨"i", 1, ⟨none, none⟩, none, 10⟩).2 (by decide),
    h1.2.1 (operationError "boom"),
    h1.2.2 (.error (operationError "boom"))⟩

/-! ## Claim C5 -/

/-- Counterexample for C5 as stated: on the stale-fallback path
`discoverIssuer` returns the raw record from the forced
`_getUncachedIssuerConfig` call, whose own property names include `next`
and `expires` — not an object with exactly the fields
issuer/keySet/metadata. -/
theorem discover_stale_result_extra_keys :
    (discoverIssuerTail [("u", 0)] "u" 0
        ⟨"i", 1, ⟨none, none⟩, none, 10⟩ 99
        ⟨"i", 2, ⟨none, none⟩, none, 300⟩ 7).2.2.keys ≠
      ["issuer", "jwks", "config"] := by
  decide

/-- Claim C5 (amended): a fresh-path resolve returns the object literal
`{issuer, jwks, config}` (exactly those fields) and leaves the cache
unchanged; on the stale-fallback path, where the resolved record's expiry
has passed, the entry is deleted exactly when the peeked current promise
is identity-equal to the awaited one, and the uncached fetch-and-validate
record is returned directly — an object additionally carrying the `next`
and `expires` fields. -/
theorem discover_resolve_result_shape (cacheAtCheck : List (String × Nat))
    (key : String) (promise : Nat) (record : IssuerRecord) (now : Nat)
    (refetch : IssuerRecord) (allocId : Nat) :
    (¬ record.expires < now →
      discoverIssuerTail cacheAtCheck key promise record now refetch
          allocId =
        (cacheAtCheck,
          (allocId,
            .trimmed record.issuer record.jwks record.config)) ∧
      (DiscoverShape.trimmed record.issuer record.jwks record.config).keys =
        ["issuer", "jwks", "config"]) ∧
    (record.expires < now →
      (discoverIssuerTail cacheAtCheck key promise record now refetch
          allocId).2.2 = .record refetch ∧
      (DiscoverShape.record refetch).keys =
        ["issuer", "jwks", "config", "next", "expires"] ∧
      (alistLookup key cacheAtCheck = some promise →
        (discoverIssuerTail cacheAtCheck key promise record now refetch
          allocId).1 = alistErase key cacheAtCheck) ∧
      (alistLookup key cacheAtCheck ≠ some promise →
        (discoverIssuerTail cacheAtCheck key promise record now refetch
          allocId).1 = cacheAtCheck)) := by
  constructor
  · intro hfresh
    unfold discoverIssuerTail
    rw [if_neg hfresh]
    exact ⟨rfl, rfl⟩
  · intro hstale
    unfold discoverIssuerTail
    rw [if_pos hstale]
    refine ⟨rfl, rfl, fun hcur => ?_, fun hncur => ?_⟩
    · simp [hcur]
    · simp [hncur]

/-- Witness for C5 (amended) at concrete fresh and stale instances. -/
theorem discover_resolve_result_shape_witness :
    (discoverIssuerTail [("u", 0)] "u" 0
        ⟨"i", 1, ⟨none, none⟩, none, 10⟩ 5
        ⟨"i", 2, ⟨none, none⟩, none, 300⟩ 7) =
      ([("u", 0)], (7, .trimmed "i" 1 ⟨none, none⟩)) ∧
    (discoverIssuerTail [("u", 0)] "u" 0
        ⟨"i", 1, ⟨none, none⟩, none, 10⟩ 99
        ⟨"i", 2, ⟨none, none⟩, none, 300⟩ 7).1 =
      alistErase "u" [("u", 0)] := by
  have h := discover_resolve_result_shape [("u", 0)] "u" 0
    ⟨"i", 1, ⟨none, none⟩, none, 10⟩ 5 ⟨"i", 2, ⟨none, none⟩, none, 300⟩ 7
  have h2 := discover_resolve_result_shape [("u", 0)] "u" 0
    ⟨"i", 1, ⟨none, none⟩, none, 10⟩ 99 ⟨"i", 2, ⟨none, none⟩, none, 300⟩ 7
  exact ⟨(h.1 (by decide)).1, (h2.2 (by decide)).2.2.1 (by decide)⟩

/-! ## Claim C6 -/

/-- Counterexample for C6 as stated: two back-to-back resolves of the same
fresh record return two freshly constructed `{issuer, jwks, config}`
objects (allocation ids 1 and 2), not the identical object. -/
theorem discover_fresh_not_identical :
    (discoverIssuerSeq "u" 5 (fun _ => ⟨"i", 1, ⟨none, none⟩, none, 100⟩)
        ⟨[("u", 0)], [(0, ⟨"i", 1, ⟨none, none⟩, none, 100⟩)], 1, 1⟩ =
      some ((1, .trimmed "i" 1 ⟨none, none⟩),
        ⟨[("u", 0)], [(0, ⟨"i", 1, ⟨none, none⟩, none, 100⟩)], 2, 1⟩)) ∧
    (discoverIssuerSeq "u" 5 (fun _ => ⟨"i", 1, ⟨none, none⟩, none, 100⟩)
        ⟨[("u", 0)], [(0, ⟨"i", 1, ⟨none, none⟩, none, 100⟩)], 2, 1⟩ =
      some ((2, .trimmed "i" 1 ⟨none, none⟩),
        ⟨[("u", 0)], [(0, ⟨"i", 1, ⟨none, none⟩, none, 100⟩)], 3, 1⟩)) ∧
    ((1 : Nat), DiscoverShape.trimmed "i" 1 ⟨none, none⟩) ≠
      ((2 : Nat), DiscoverShape.trimmed "i" 1 ⟨none, none⟩) := by
  refine ⟨by decide, by decide, by decide⟩

/-- Claim C6 (amended): resolving the same `issuerConfigUrl` twice while
the cached record is fresh spawns no new fetch and mutates neither the
cache nor the settled promises; both calls return objects built from the
identical cached record (equal `issuer`/`jwks`/`config` field values),
but each call returns a freshly allocated result object, so the two
returned objects are not identity-equal. -/
theorem discover_fresh_idempotent (s : DiscoveryState) (key : String)
    (now : Nat) (fetch : Nat → IssuerRecord) (p : Nat) (r : IssuerRecord)
    (hc : alistLookup key s.cache = some p)
    (hs : alistLookup p s.settled = some r)
    (hfresh : ¬ r.expires < now) :
    discoverIssuerSeq key now fetch s =
      some ((s.nextId, .trimmed r.issuer r.jwks r.config),
        { s with nextId := s.nextId + 1 }) ∧
    discoverIssuerSeq key now fetch { s with nextId := s.nextId + 1 } =
      some ((s.nextId + 1, .trimmed r.issuer r.jwks r.config),
        { s with nextId := s.nextId + 1 + 1 }) ∧
    ({ s with nextId := s.nextId + 1 + 1 } : DiscoveryState).cache =
      s.cache ∧
    ({ s with nextId := s.nextId + 1 + 1 } : DiscoveryState).settled =
      s.settled ∧
    ({ s with nextId := s.nextId + 1 + 1 } : DiscoveryState).fnRuns =
      s.fnRuns ∧
    ((s.nextId, DiscoverShape.trimmed r.issuer r.jwks r.config) :
        Nat × DiscoverShape) ≠
      (s.nextId + 1, DiscoverShape.trimmed r.issuer r.jwks r.config) := by
  refine ⟨?_, ?_, rfl, rfl, rfl, ?_⟩
  · unfold discoverIssuerSeq
    simp [hc, hs, hfresh]
  · unfold discoverIssuerSeq
    simp [hc, hs, hfresh]
  · intro hcontra
    have := congrArg Prod.fst hcontra
    omega

/-- Witness for C6 (amended) at a concrete fresh cache state. -/
theorem discover_fresh_idempotent_witness :
    discoverIssuerSeq "u" 5 (fun _ => ⟨"i", 1, ⟨none, none⟩, none, 100⟩)
        ⟨[("u", 0)], [(0, ⟨"i", 1, ⟨none, none⟩, none, 100⟩)], 1, 1⟩ =
      some ((1, .trimmed "i" 1 ⟨none, none⟩),
        ⟨[("u", 0)], [(0, ⟨"i", 1, ⟨none, none⟩, none, 100⟩)], 2, 1⟩) ∧
      ((1 : Nat), DiscoverShape.trimmed "i" 1 ⟨none, none⟩) ≠
        (2, DiscoverShape.trimmed "i" 1 ⟨none, none⟩) := by
  have h := discover_fresh_idempotent
    ⟨[("u", 0)], [(0, ⟨"i", 1, ⟨none, none⟩, none, 100⟩)], 1, 1⟩
    "u" 5 (fun _ => ⟨"i", 1, ⟨none, none⟩, none, 100⟩) 0
    ⟨"i", 1, ⟨none, none⟩, none, 100⟩ (by decide) (by decide) (by decide)
  exact ⟨h.1, h.2.2.2.2.2⟩

/-! ## Claim C1 -/

theorem scopeLoop_ok_iff (ras path : String) (l : List String) :
    scopeLoop ras path l = .ok true ↔
      ∃ c ∈ l, scopeMatches ras path c = true := by
  induction l with
  | nil => simp [scopeLoop]
  | cons c rest ih =>
    by_cases hm : scopeMatches ras path c = true
    · simp [scopeLoop, hm]
    · simp [scopeLoop, hm, ih]

theorem scopeLoop_error_of_no_match (ras path : String) (l : List String)
    (h : ¬ ∃ c ∈ l, scopeMatches ras path c = true) :
    scopeLoop ras path l = .error insufficientScopeError := by
  induction l with
  | nil => rfl
  | cons c rest ih =>
    have hmc : ¬ scopeMatches ras path c = true := fun hc =>
      h ⟨c, by simp, hc⟩
    have hrest : ¬ ∃ x ∈ rest, scopeMatches ras path x = true := by
      rintro ⟨x, hx, hxx⟩
      exact h ⟨x, by simp [hx], hxx⟩
    unfold scopeLoop
    rw [if_neg hmc]
    exact ih hrest

theorem scopeMatches_iff (action path c : String) :
    scopeMatches (action ++ ":") path c = true ↔
      candidateAuthorizes action path c := by
  unfold scopeMatches candidateAuthorizes
  simp [string_eq_empty_iff_length]

/-- Claim C1: for every verified token payload and every `ExpectedAccess`
whose action and target have been resolved,
`checkTargetScopedAccessToken` authorizes (returns `true`) if and only if
some space-delimited candidate of the payload's `scope` string starts with
`action + ":"` and its remaining path part either equals `/` or is a
prefix of the relative path (the target with `rootInvocationTarget`
removed, empty becoming `/`) such that the character in the relative path
immediately after the matched prefix is end-of-string, `/`, `?`, `&` or
`#`; when no candidate matches, it raises the `NotAllowedError` with
`httpStatusCode` 403 identifying claim `scope`. -/
theorem checkTargetScoped_scope_match (req : Req) (expected : Expected)
    (audience : Option String)
    (verify : String → String → Except JsError Payload)
    (action target auth jwt : String) (payload : Payload)
    (ha : expected.action = some action)
    (ht : expected.target = some target)
    (hchk : _checkExpectedValues expected = .ok ())
    (hst : strStartsWith target expected.rootInvocationTarget = true)
    (hauth : req.authorization = some auth)
    (hjwt : oauth2TokenRegexCapture auth = some jwt)
    (haud : resolveAudience audience expected.rootInvocationTarget ≠ "")
    (hv : verify (resolveAudience audience expected.rootInvocationTarget)
      jwt = .ok payload) :
    (checkTargetScopedAccessToken req expected audience verify = .ok true ↔
      ∃ c ∈ scopeCandidates payload.scope,
        candidateAuthorizes action
          (specRelativePath expected.rootInvocationTarget target) c) ∧
    ((¬ ∃ c ∈ scopeCandidates payload.scope,
        candidateAuthorizes action
          (specRelativePath expected.rootInvocationTarget target) c) →
      checkTargetScopedAccessToken req expected audience verify =
        .error insufficientScopeError) := by
  have hred : checkTargetScopedAccessToken req expected audience verify =
      scopeCheck payload.scope action expected.rootInvocationTarget
        target := by
    unfold checkTargetScopedAccessToken checkAccessToken getJwtFromReq
    simp only [hchk, resolveAction, ha, Option.orElse, ht, hst, hauth, hjwt]
    simp [haud, hv]
  have hloop := scopeLoop_ok_iff (action ++ ":")
    (specRelativePath expected.rootInvocationTarget target)
    (scopeCandidates payload.scope)
  have hcands : (∃ c ∈ scopeCandidates payload.scope,
      scopeMatches (action ++ ":")
        (specRelativePath expected.rootInvocationTarget target) c = true) ↔
      ∃ c ∈ scopeCandidates payload.scope,
        candidateAuthorizes action
          (specRelativePath expected.rootInvocationTarget target) c :=
    exists_congr fun c => and_congr_right fun _ => scopeMatches_iff _ _ _
  constructor
  · rw [hred]
    exact Iff.trans hloop hcands
  · intro hno
    rw [hred]
    exact scopeLoop_error_of_no_match _ _ _ (fun hex => hno (hcands.mp hex))

/-- Witness for C1: a `read:/foos` scope authorizes `GET` on
`https://h/foos/1` under root invocation target `https://h`. -/
theorem checkTargetScoped_scope_match_witness :
    checkTargetScopedAccessToken
        ⟨"GET", "/foos/1", some "Bearer tok"⟩
        ⟨some "read", "h", "https://h", some "https://h/foos/1"⟩
        none (fun _ _ => .ok ⟨some "read:/foos"⟩) = .ok true := by
  have h := checkTargetScoped_scope_match
    ⟨"GET", "/foos/1", some "Bearer tok"⟩
    ⟨some "read", "h", "https://h", some "https://h/foos/1"⟩
    none (fun _ _ => .ok ⟨some "read:/foos"⟩)
    "read" "https://h/foos/1" "Bearer tok" "tok" ⟨some "read:/foos"⟩
    rfl rfl (by decide) (by decide) rfl (by decide) (by decide) rfl
  exact h.1.mpr ⟨"read:/foos", by decide, by decide⟩

end BedrockOauth2
